import Mathlib

/-!
# Verification of the showdex core against its specification

This file shallowly embeds the core functions of the repository:

* `createSmogonPokemon` (src/utils/calc/createSmogonPokemon.ts) — the
  Matchup Adapter that turns a `CalcdexPokemon` into the parameter record of
  the `@smogon/calc` damage engine;
* `appliedPreset` (same file) — the Preset Matcher predicate;
* the dehydrators of the Hydration Codec (src/utils/hydro/dehydrators.ts).

JavaScript values that the dehydrators receive are modelled by the inductive
type `JSVal`; nullable fields are modelled with `Option`; JS `??` and `||`
are modelled by `jsNullish` and `jsOr`; machine numbers are modelled by `Int`
(the stat tables hold small integers).  External utilities that live outside
the excerpted sources (`detectGenFromFormat`, `detectLegacyGen`,
`getGenDexForFormat`, `formatId`, `calcPokemonHpPercentage`,
`PokemonToggleAbilities`) are modelled from the spec and marked as such.
-/

/-- JS nullish coalescing `a ?? b` over `Option`. -/
def jsNullish {α : Type} (a b : Option α) : Option α :=
  match a with
  | some v => some v
  | none => b

/-- JS `a || b` for string-valued operands: a `some ""` (falsy) falls through. -/
def jsOr (a b : Option String) : Option String :=
  match a with
  | some s => if s = "" then b else some s
  | none => b

/-- JS truthiness applied to an optional string: `some ""` and `none` become `none`. -/
def jsTruthy (a : Option String) : Option String :=
  match a with
  | some s => if s = "" then none else some s
  | none => none

/-- Does the character list `l` end with the character list `post`? -/
def strEndsWith (s post : String) : Bool :=
  List.isSuffixOf post.data s.data

/-- Remove the reserved delimiter characters `','`, `';'`, `'|'`
(the JS `replace(/(?:,|;|\x7c)/g, '')`). -/
def stripDelims (s : String) : String :=
  String.mk (s.data.filter (fun c => c ≠ ',' && c ≠ ';' && c ≠ '|'))

/-- One digit character: `48 + d` is the code point of the decimal digit `d`. -/
def digitChar (d : Nat) : Char := Char.ofNat (48 + d)

/-- Decimal digits of `n`, least significant first, with explicit fuel
(the fuel `n` itself always suffices since `n / 10 < n` for `n > 0`). -/
def natToDigitsAux : Nat → Nat → List Char
  | 0, _ => []
  | f + 1, n => if n = 0 then [] else digitChar (n % 10) :: natToDigitsAux f (n / 10)

/-- Decimal rendering of a natural number (model of the JS `Number#toString`). -/
def natRepr (n : Nat) : String :=
  if n = 0 then "0" else String.mk (natToDigitsAux n n).reverse

/-- Decimal rendering of an integer (model of the JS `Number#toString`). -/
def intRepr (n : Int) : String :=
  if n < 0 then "-" ++ natRepr (-n).toNat else natRepr n.toNat

/-- A JavaScript value, as far as the Hydration Codec observes it. -/
inductive JSVal : Type
  | undef : JSVal
  | null : JSVal
  | bool : Bool → JSVal
  | num : Int → JSVal
  | str : String → JSVal
  | arr : List JSVal → JSVal

/-- JS truthiness of a `JSVal`. -/
def JSVal.truthy : JSVal → Bool
  | .undef => false
  | .null => false
  | .bool b => b
  | .num n => n != 0
  | .str s => s ≠ ""
  | .arr _ => true

/-- The JS `value?.toString?.()`: `none` on `null`/`undefined`, the natural
text rendering otherwise (array elements joined with `','`, holes empty). -/
def jsToString : JSVal → Option String
  | .undef => none
  | .null => none
  | .bool b => some (if b then "true" else "false")
  | .num n => some (intRepr n)
  | .str s => some s
  | .arr l => some (String.intercalate "," (jsToStringList l))
where
  /-- Render a list of JS values the way JS `Array#toString` does. -/
  jsToStringList : List JSVal → List String
  | [] => []
  | v :: vs => (jsToString v).getD "" :: jsToStringList vs

/-- `dehydrateBoolean` from src/utils/hydro/dehydrators.ts:
`value ? 'y' : 'n'` (declared on booleans; the JS truthiness test is kept so
that absent input can be evaluated too). -/
def dehydrateBoolean (value : JSVal) : String :=
  if value.truthy then "y" else "n"

/-- `dehydrateValue` from src/utils/hydro/dehydrators.ts. -/
def dehydrateValue (value : JSVal) : String :=
  match value with
  | .bool b => dehydrateBoolean (.bool b)
  | v =>
    match (jsToString v).map stripDelims with
    | some s => if s = "" then "?" else s
    | none => "?"

/-- `dehydrateArray` from src/utils/hydro/dehydrators.ts, on a present array:
element encodings joined with the delimiter. -/
def dehydrateArrayL (value : List JSVal) (delimiter : String := "/") : String :=
  String.intercalate delimiter (value.map dehydrateValue)

/-- `dehydrateArray` from src/utils/hydro/dehydrators.ts.  The source reads
`value?.map?.((v) => dehydrateValue(v)).join(delimiter)`: on a `null`/
`undefined` input the optional chain short-circuits and the function returns
`undefined`, modelled here as `none`. -/
def dehydrateArray (value : Option (List JSVal)) (delimiter : String := "/") : Option String :=
  value.map (fun l => dehydrateArrayL l delimiter)

/-- A stats table whose individual entries may be absent (`Showdown.StatsTable`). -/
structure StatsO : Type where
  hp : Option Int := none
  atk : Option Int := none
  defn : Option Int := none
  spa : Option Int := none
  spd : Option Int := none
  spe : Option Int := none
deriving DecidableEq

/-- The JS member read `value?.f` for a possibly-absent stats table. -/
def statSlot (value : Option StatsO) (f : StatsO → Option Int) : JSVal :=
  match value with
  | none => .undef
  | some t =>
    match f t with
    | none => .undef
    | some n => .num n

/-- `dehydrateStatsTable` from src/utils/hydro/dehydrators.ts: the six slots
`hp, atk, def, spa, spd, spe` in order, each dehydrated, joined with the
delimiter. -/
def dehydrateStatsTable (value : Option StatsO) (delimiter : String := "/") : String :=
  String.intercalate delimiter
    ([statSlot value (fun t => t.hp),
      statSlot value (fun t => t.atk),
      statSlot value (fun t => t.defn),
      statSlot value (fun t => t.spa),
      statSlot value (fun t => t.spd),
      statSlot value (fun t => t.spe)].map dehydrateValue)

/-- `dehydratePlayerSide` from src/utils/hydro/dehydrators.ts: entries with a
truthy key other than `conditions` and a truthy value, rendered `key=value`
and joined with the delimiter.  The JS object is modelled as an association
list in insertion order. -/
def dehydratePlayerSide (value : Option (List (String × JSVal))) (delimiter : String := "/") : String :=
  String.intercalate delimiter
    (((value.getD []).filter
        (fun e => e.1 ≠ "" && e.1 ≠ "conditions" && e.2.truthy)).map
      (fun e => e.1 ++ "=" ++ dehydrateValue e.2))

/-- Insert a key into an already sorted key list (helper of `sortKeys`). -/
def insertSorted (x : String) : List String → List String
  | [] => [x]
  | y :: ys => if x ≤ y then x :: y :: ys else y :: insertSorted x ys

/-- Sort the (unique) keys of a JS object lexicographically, modelling the
default JS `Array#sort` that `dehydratePerSide` applies to `Object.keys`. -/
def sortKeys : List String → List String
  | [] => []
  | x :: xs => insertSorted x (sortKeys xs)

/-- `dehydratePerSide` from src/utils/hydro/dehydrators.ts: the keys of the
record in sorted order; array values are sub-encoded with the inner
delimiter, other values dehydrated directly; joined with the outer delimiter. -/
def dehydratePerSide (value : Option (List (String × JSVal)))
    (delimiter : String := "/") (arrayDelimiter : String := ",") : String :=
  String.intercalate delimiter
    ((sortKeys ((value.getD []).map Prod.fst)).map
      (fun key =>
        match (value.getD []).lookup key with
        | some (.arr l) => dehydrateArrayL l arrayDelimiter
        | some v => dehydrateValue v
        | none => dehydrateValue .undef))

/-- The per-slot encoding of `dehydrateStatsTable`, written from the spec's
words: an absent stat is the placeholder `'?'`, a present stat is its decimal
text. -/
def specStatSlot (o : Option Int) : String :=
  match o with
  | none => "?"
  | some n => intRepr n

/-- A total stats table (`Required<Showdown.StatsTable>`), e.g. `baseStats`. -/
structure Stats : Type where
  hp : Int := 0
  atk : Int := 0
  defn : Int := 0
  spa : Int := 0
  spd : Int := 0
  spe : Int := 0
deriving DecidableEq

/-- The transformed forme's base stats: every stat except HP
(`Required<Omit<Showdown.StatsTable, 'hp'>>`). -/
structure Stats5 : Type where
  atk : Int := 0
  defn : Int := 0
  spa : Int := 0
  spd : Int := 0
  spe : Int := 0
deriving DecidableEq

/-- The fields of a `CalcdexPokemon` that `createSmogonPokemon` and
`appliedPreset` consume.  Nullable fields are `Option`; `moveOverrides` keeps
the names of the moves that carry a non-empty override object; `volatiles`
keeps the volatile keys. -/
structure CalcdexPokemon : Type where
  calcdexId : Option String := none
  speciesForme : String := ""
  level : Int := 100
  gender : String := "N"
  item : Option String := none
  dirtyItem : Option String := none
  prevItem : Option String := none
  status : Option String := none
  dirtyStatus : Option String := none
  ability : Option String := none
  dirtyAbility : Option String := none
  abilityToggleable : Bool := false
  abilityToggled : Bool := false
  nature : Option String := none
  moves : List String := []
  ivs : StatsO := {}
  evs : StatsO := {}
  boosts : StatsO := {}
  dirtyBoosts : StatsO := {}
  baseStats : Stats := {}
  dirtyBaseStats : StatsO := {}
  transformedForme : Option String := none
  transformedBaseStats : Option Stats5 := none
  types : List String := []
  dirtyTypes : List String := []
  teraType : Option String := none
  terastallized : Bool := false
  toxicCounter : Int := 0
  useMax : Bool := false
  volatiles : List String := []
  faintCounter : Int := 0
  dirtyFaintCounter : Option Int := none
  moveOverrides : List String := []
  boostedStat : Option String := none
  serverSourced : Bool := false
  hp : Int := 100
  maxhp : Int := 100
  spreadStats : Option Stats := none
deriving DecidableEq

/-- The part of a `CalcdexBattleField` the adapter reads. -/
structure CalcdexBattleField : Type where
  gameType : String := "Singles"
deriving DecidableEq

/-- A `CalcdexPokemonPreset`, as far as `appliedPreset` consumes it. -/
structure CalcdexPokemonPreset : Type where
  source : Option String := none
  ability : Option String := none
  item : Option String := none
  nature : Option String := none
  moves : List String := []
  ivs : StatsO := {}
  evs : StatsO := {}
deriving DecidableEq

/-- The parameter record `createSmogonPokemon` hands to the `@smogon/calc`
`Pokemon` constructor (its `options` argument, with the nested `overrides`
flattened into the `overrides*` fields). -/
structure SmogonPokemonOptions : Type where
  curHP : Int
  level : Int
  gender : String
  teraType : Option String
  status : Option String
  toxicCounter : Int
  alliesFainted : Option Int
  isDynamaxed : Bool
  isSaltCure : Bool
  ability : Option String
  abilityOn : Bool
  item : Option String
  nature : Option String
  moves : List String
  ivs : Stats
  evs : Stats
  boostedStat : Option String
  boosts : Stats
  overridesBaseStats : StatsO
  overridesTypes : List (Option String)
deriving DecidableEq

/-- Digits-to-number accumulator for `detectGenFromFormat`. -/
def digitsToNatAux : Nat → List Char → Nat
  | acc, [] => acc
  | acc, c :: cs => digitsToNatAux (acc * 10 + (c.toNat - 48)) cs

/-- Modelled from the spec: `detectGenFromFormat` (external dex utility) reads
the generation number out of a format id such as `"gen9ou"`; an
undeterminable generation yields `0`, which the adapter treats as failure. -/
def detectGenFromFormat (format : String) : Nat :=
  match format.data with
  | 'g' :: 'e' :: 'n' :: rest =>
    let digits := rest.takeWhile Char.isDigit
    if digits = [] then 0 else digitsToNatAux 0 digits
  | _ => 0

/-- Modelled from the spec: `detectLegacyGen` (external dex utility) — the
legacy rulesets are generations 1 and 2 (no natures / abilities, coupled
special stats). -/
def detectLegacyGen (gen : Nat) : Bool :=
  gen == 1 || gen == 2

/-- Modelled from the spec: `getGenDexForFormat` (external dex utility)
yields a dex handle exactly when the generation is determinable; the handle
itself is opaque to the adapter, so it is modelled by the generation number. -/
def getGenDexForFormat (format : String) : Option Nat :=
  if detectGenFromFormat format ≥ 1 then some (detectGenFromFormat format) else none

/-- Modelled from the spec: `formatId` (external core utility) — the
lower-cased name with every character outside `[a-z0-9]` removed, e.g.
`"Beads of Ruin"` becomes `"beadsofruin"`. -/
def formatIdStr (s : String) : String :=
  String.mk (s.data.filterMap (fun c =>
    let lc := c.toLower
    if ('a' ≤ lc && lc ≤ 'z') || ('0' ≤ lc && lc ≤ '9') then some lc else none))

/-- Modelled from the spec: `PokemonToggleAbilities` (external consts) — the
pseudo-toggleable ability classes: the multiscale-class damage reducers, the
paradox stat boosters and the Ruin auras. -/
def PokemonToggleAbilities : List String :=
  ["Beads of Ruin", "Multiscale", "Protosynthesis", "Quark Drive",
   "Shadow Shield", "Slow Start", "Sword of Ruin", "Tablets of Ruin",
   "Unburden", "Vessel of Ruin"]

/-- Modelled from the spec: `calcPokemonHpPercentage` (external calc utility)
— the fractional HP estimate of a combatant. -/
def calcPokemonHpPercentage (p : CalcdexPokemon) : Rat :=
  if p.maxhp = 0 then 0 else (p.hp : Rat) / (p.maxhp : Rat)

/-- `const item = (gen > 1 && (pokemon.dirtyItem ?? pokemon.item)) || null`. -/
def resolveItem (gen : Nat) (p : CalcdexPokemon) : Option String :=
  if gen > 1 then jsTruthy (jsNullish p.dirtyItem p.item) else none

/-- The base-status part of the status resolution:
`pokemon.status === '???' ? null : pokemon.status`. -/
def baseStatusPart (p : CalcdexPokemon) : Option String :=
  match p.status with
  | some s => if s = "???" then none else some s
  | none => none

/-- The status resolution of `createSmogonPokemon` (lines 70–76): a truthy
`dirtyStatus` other than the `'???'` sentinel wins, with `'ok'` mapping to
no-status; otherwise the base status with `'???'` mapping to no-status. -/
def resolveStatus (p : CalcdexPokemon) : Option String :=
  match p.dirtyStatus with
  | some ds =>
    if ds ≠ "" && ds ≠ "???" then (if ds = "ok" then none else some ds)
    else baseStatusPart p
  | none => baseStatusPart p

/-- `const ability = (!legacy && (pokemon.dirtyAbility ?? pokemon.ability)) || null`. -/
def resolveAbility (legacy : Bool) (p : CalcdexPokemon) : Option String :=
  if legacy then none else jsTruthy (jsNullish p.dirtyAbility p.ability)

/-- The `pseudoToggleAbility` test (lines 86–90): the resolved ability id is
in the toggle list, except that the Ruin abilities are dropped from the list
outside Doubles. -/
def pseudoToggleAbilityCalc (doubles : Bool) (abilityId : Option String) : Bool :=
  match abilityId with
  | none => false
  | some aid =>
    aid ≠ "" &&
      (PokemonToggleAbilities.filterMap (fun a =>
        let fa := formatIdStr a
        if (strEndsWith fa "ofruin" && !doubles) || fa = "" then none else some fa)).contains aid

/-- The `curHP` IIFE (lines 103–120). -/
def curHPCalc (p : CalcdexPokemon) (pseudoToggled : Bool) (abilityId : Option String) : Int :=
  let shouldMultiscale :=
    pseudoToggled && (abilityId == some "multiscale" || abilityId == some "shadowshield")
  let maxHp :=
    match p.spreadStats with
    | some st => st.hp
    | none => if p.maxhp ≠ 0 then p.maxhp else 100
  if p.serverSourced then
    (if shouldMultiscale && p.hp == 0 then maxHp else p.hp)
  else
    let pct := calcPokemonHpPercentage p
    Int.floor ((if shouldMultiscale && p.hp == 0 then 1 else if pct = 0 then 1 else pct) * (maxHp : Rat))

/-- One stat of the `overrides.baseStats` merge (lines 180–193): a dirty
value is spread over the base value only when it is a non-negative number. -/
def dirtyOkStat (o : Option Int) (b : Int) : Int :=
  match o with
  | some v => if 0 ≤ v then v else b
  | none => b

/-- The `overrides.baseStats` merge of base stats and dirty base stats. -/
def mergedBaseStats (p : CalcdexPokemon) : StatsO :=
  { hp := some (dirtyOkStat p.dirtyBaseStats.hp p.baseStats.hp)
    atk := some (dirtyOkStat p.dirtyBaseStats.atk p.baseStats.atk)
    defn := some (dirtyOkStat p.dirtyBaseStats.defn p.baseStats.defn)
    spa := some (dirtyOkStat p.dirtyBaseStats.spa p.baseStats.spa)
    spd := some (dirtyOkStat p.dirtyBaseStats.spd p.baseStats.spd)
    spe := some (dirtyOkStat p.dirtyBaseStats.spe p.baseStats.spe) }

/-- Resolve an optional stats table against a per-stat default
(the `pokemon.ivs?.hp ?? defaultIv` pattern). -/
def resolveTable (t : StatsO) (d : Int) : Stats :=
  { hp := t.hp.getD d, atk := t.atk.getD d, defn := t.defn.getD d,
    spa := t.spa.getD d, spd := t.spd.getD d, spe := t.spe.getD d }

/-- The boosts table (lines 170–176): `dirtyBoosts?.x ?? boosts?.x ?? 0`. -/
def boostsTable (p : CalcdexPokemon) : Stats :=
  { hp := 0
    atk := (jsNullish p.dirtyBoosts.atk p.boosts.atk).getD 0
    defn := (jsNullish p.dirtyBoosts.defn p.boosts.defn).getD 0
    spa := (jsNullish p.dirtyBoosts.spa p.boosts.spa).getD 0
    spd := (jsNullish p.dirtyBoosts.spd p.boosts.spd).getD 0
    spe := (jsNullish p.dirtyBoosts.spe p.boosts.spe).getD 0 }

/-- The `overrides.types` resolution (lines 200–204): the dirty types when
non-empty, else the base types, padded with two `null` slots and truncated to
two entries. -/
def resolveTypes (p : CalcdexPokemon) : List (Option String) :=
  (((if p.dirtyTypes ≠ [] then p.dirtyTypes else p.types).map some) ++ [none, none]).take 2

/-- The `alliesFainted` resolution (lines 131–134): suppressed (JS `false`,
modelled `none`) when the evaluated move carries a non-empty override, else
`dirtyFaintCounter ?? (faintCounter || 0)`. -/
def alliesFaintedCalc (moveName : Option String) (p : CalcdexPokemon) : Option Int :=
  match moveName with
  | none => some (p.dirtyFaintCounter.getD p.faintCounter)
  | some m =>
    if p.moveOverrides.contains m then none
    else some (p.dirtyFaintCounter.getD p.faintCounter)

/-- The initial `options` record of `createSmogonPokemon` (lines 96–206),
before the in-place adjustments. -/
def smogonOptionsBase (gen : Nat) (p : CalcdexPokemon) (moveName : Option String)
    (field : Option CalcdexBattleField) : SmogonPokemonOptions :=
  let legacy := detectLegacyGen gen
  let defaultIv : Int := if legacy then 30 else 31
  let defaultEv : Int := if legacy then 252 else 0
  let ability := resolveAbility legacy p
  let abilityId := ability.map formatIdStr
  let doubles := (field.map (fun f => f.gameType)).getD "" = "Doubles"
  let pToggleA := pseudoToggleAbilityCalc doubles abilityId
  let pToggled := pToggleA && p.abilityToggleable && p.abilityToggled
  { curHP := curHPCalc p pToggled abilityId
    level := p.level
    gender := p.gender
    teraType := if p.terastallized then jsTruthy p.teraType else none
    status := resolveStatus p
    toxicCounter := p.toxicCounter
    alliesFainted := alliesFaintedCalc moveName p
    isDynamaxed := p.useMax
    isSaltCure := p.volatiles.contains "saltcure"
    ability := if pToggleA && !pToggled then some "Pressure" else ability
    abilityOn := pToggled
    item := resolveItem gen p
    nature := if legacy then none else p.nature
    moves := p.moves
    ivs := resolveTable p.ivs defaultIv
    evs := resolveTable p.evs defaultEv
    boostedStat := p.boostedStat
    boosts := boostsTable p
    overridesBaseStats := mergedBaseStats p
    overridesTypes := resolveTypes p }

/-- Lines 210–223: in legacy gens the SPD IVs mirror the SPA IVs; in gen 1
the SPD EVs, SPD boosts and (when they differ) the SPD base-stat override
additionally mirror SPA. -/
def applyLegacySpc (gen : Nat) (o : SmogonPokemonOptions) : SmogonPokemonOptions :=
  let legacy := detectLegacyGen gen
  let o1 := if legacy then { o with ivs := { o.ivs with spd := o.ivs.spa } } else o
  if gen = 1 then
    { o1 with
      evs := { o1.evs with spd := o1.evs.spa }
      boosts := { o1.boosts with spd := o1.boosts.spa }
      overridesBaseStats :=
        if o1.overridesBaseStats.spd ≠ o1.overridesBaseStats.spa then
          { o1.overridesBaseStats with spd := o1.overridesBaseStats.spa }
        else o1.overridesBaseStats }
  else o1

/-- Lines 267–269: a Protean/Libero-class resolved ability whose toggle flag
is off is reported to the engine as the neutral `Pressure`. -/
def applyProteanMask (p : CalcdexPokemon) (abilityId : Option String)
    (o : SmogonPokemonOptions) : SmogonPokemonOptions :=
  if (abilityId == some "protean" || abilityId == some "libero") && !p.abilityToggled then
    { o with ability := some "Pressure" }
  else o

/-- Lines 273–275: switch-in stat-boost abilities already reflected by the
client are reported as the neutral `Pressure`. -/
def applyBoostMask (abilityId : Option String) (o : SmogonPokemonOptions) : SmogonPokemonOptions :=
  if abilityId == some "intrepidsword" || abilityId == some "download" then
    { o with ability := some "Pressure" }
  else o

/-- Lines 279–285: in non-legacy gens, when both combatants resolve to the
identical Ruin aura, the ability is reported as the neutral `Pressure`. -/
def applyRuinMask (legacy : Bool) (abilityId : Option String)
    (opponentPokemon : Option CalcdexPokemon) (o : SmogonPokemonOptions) : SmogonPokemonOptions :=
  match abilityId, opponentPokemon with
  | some aid, some opp =>
    if !legacy && strEndsWith aid "ofruin" && opp.speciesForme ≠ "" then
      match (jsOr opp.dirtyAbility opp.ability).map formatIdStr with
      | some oa =>
        if strEndsWith oa "ofruin" && oa = aid then { o with ability := some "Pressure" } else o
      | none => o
    else o
  | _, _ => o

/-- Lines 289–299: a transformed combatant takes the transformed forme's base
stats, except HP which stays the original base HP.  A missing
`transformedBaseStats` table spreads nothing, leaving only HP present. -/
def applyTransform (p : CalcdexPokemon) (o : SmogonPokemonOptions) : SmogonPokemonOptions :=
  if (p.transformedForme.getD "") ≠ "" then
    { o with overridesBaseStats :=
        match p.transformedBaseStats with
        | some t =>
          { hp := some p.baseStats.hp, atk := some t.atk, defn := some t.defn,
            spa := some t.spa, spd := some t.spd, spe := some t.spe }
        | none =>
          { hp := some p.baseStats.hp, atk := none, defn := none,
            spa := none, spd := none, spe := none } }
  else o

/-- Lines 303–308: the `powertrick` volatile swaps the attack and defense
base-stat overrides. -/
def applyPowerTrick (p : CalcdexPokemon) (o : SmogonPokemonOptions) : SmogonPokemonOptions :=
  if p.volatiles ≠ [] && p.volatiles.contains "powertrick" then
    { o with overridesBaseStats :=
        { o.overridesBaseStats with
          atk := o.overridesBaseStats.defn
          defn := o.overridesBaseStats.atk } }
  else o

/-- The full adjustment pipeline of `createSmogonPokemon` after the guards. -/
def buildOptions (gen : Nat) (p : CalcdexPokemon) (moveName : Option String)
    (opponentPokemon : Option CalcdexPokemon) (field : Option CalcdexBattleField) :
    SmogonPokemonOptions :=
  let legacy := detectLegacyGen gen
  let abilityId := (resolveAbility legacy p).map formatIdStr
  applyPowerTrick p
    (applyTransform p
      (applyRuinMask legacy abilityId opponentPokemon
        (applyBoostMask abilityId
          (applyProteanMask p abilityId
            (applyLegacySpc gen (smogonOptionsBase gen p moveName field))))))

/-- `createSmogonPokemon` from src/utils/calc/createSmogonPokemon.ts.  The
function constructs the engine's parameter record, or `none` when the dex or
generation cannot be resolved or the combatant lacks `calcdexId` /
`speciesForme` (the source returns `null` there; being a total Lean function,
the embedding also witnesses that the adapter never throws). -/
def createSmogonPokemon (format : String) (pokemon : Option CalcdexPokemon)
    (moveName : Option String := none) (opponentPokemon : Option CalcdexPokemon := none)
    (field : Option CalcdexBattleField := none) : Option SmogonPokemonOptions :=
  match getGenDexForFormat format, pokemon with
  | some _, some p =>
    let gen := detectGenFromFormat format
    if gen < 1 || (p.calcdexId.getD "") = "" || p.speciesForme = "" then none
    else some (buildOptions gen p moveName opponentPokemon field)
  | _, _ => none

/-- The ability the adapter would report with the Ruin-cancellation rule
removed (the value of `options.ability` just before line 279). -/
def abilityBeforeRuin (gen : Nat) (p : CalcdexPokemon) (moveName : Option String)
    (field : Option CalcdexBattleField) : Option String :=
  let legacy := detectLegacyGen gen
  let abilityId := (resolveAbility legacy p).map formatIdStr
  (applyBoostMask abilityId
    (applyProteanMask p abilityId
      (applyLegacySpc gen (smogonOptionsBase gen p moveName field)))).ability

/-- Truthy equality `!!a && !!b && a === b` used by `appliedPreset` for
nature, ability and item. -/
def optTruthyEq (a b : Option String) : Bool :=
  match a, b with
  | some x, some y => x ≠ "" && y ≠ "" && x == y
  | _, _ => false

/-- The move conjunct of `appliedPreset` (line 666): both move lists
non-empty and every preset move present among the combatant's moves. -/
def movesMatch (pokemonMoves presetMoves : List String) : Bool :=
  !pokemonMoves.isEmpty && !presetMoves.isEmpty &&
    presetMoves.all (fun move => pokemonMoves.contains move)

/-- One entry of the IV comparison (line 668): an entry present on the
combatant passes when it is an hp/spd entry in a legacy gen, or equals the
preset's IV defaulted to `defaultIv`. -/
def ivEntryOk (legacy : Bool) (defaultIv : Int) (skipped : Bool)
    (pokemonIv presetIv : Option Int) : Bool :=
  match pokemonIv with
  | none => true
  | some v => (legacy && skipped) || (presetIv.getD defaultIv == v)

/-- The IV comparison of `appliedPreset` over the six stat entries; the
`skipped` flag marks the `['hp', 'spd']` membership test of the source. -/
def ivsOk (legacy : Bool) (defaultIv : Int) (pIvs prIvs : StatsO) : Bool :=
  ivEntryOk legacy defaultIv true pIvs.hp prIvs.hp &&
  ivEntryOk legacy defaultIv false pIvs.atk prIvs.atk &&
  ivEntryOk legacy defaultIv false pIvs.defn prIvs.defn &&
  ivEntryOk legacy defaultIv false pIvs.spa prIvs.spa &&
  ivEntryOk legacy defaultIv true pIvs.spd prIvs.spd &&
  ivEntryOk legacy defaultIv false pIvs.spe prIvs.spe

/-- One entry of the EV comparison (line 669): an entry present on the
combatant must equal the preset's EV defaulted with `|| 0`. -/
def evEntryOk (pokemonEv presetEv : Option Int) : Bool :=
  match pokemonEv with
  | none => true
  | some v => presetEv.getD 0 == v

/-- The EV comparison of `appliedPreset` over the six stat entries. -/
def evsOk (pEvs prEvs : StatsO) : Bool :=
  evEntryOk pEvs.hp prEvs.hp &&
  evEntryOk pEvs.atk prEvs.atk &&
  evEntryOk pEvs.defn prEvs.defn &&
  evEntryOk pEvs.spa prEvs.spa &&
  evEntryOk pEvs.spd prEvs.spd &&
  evEntryOk pEvs.spe prEvs.spe

/-- `appliedPreset` from src/utils/calc/createSmogonPokemon.ts (the Preset
Matcher).  The source's `detectLegacyGen(format)` is modelled as
`detectLegacyGen` of the detected generation. -/
def appliedPreset (format : String) (pokemon : Option CalcdexPokemon)
    (preset : Option CalcdexPokemonPreset) : Bool :=
  match pokemon, preset with
  | some p, some pr =>
    if format = "" then false
    else if p.speciesForme = "" then false
    else if (pr.source.getD "") = "" then false
    else
      let gen := detectGenFromFormat format
      if gen = 0 then false
      else
        let legacy := detectLegacyGen gen
        let defaultIv : Int := if legacy then 30 else 31
        let pokemonAbility := jsOr p.dirtyAbility p.ability
        let pokemonItem := jsNullish p.dirtyItem (jsOr p.prevItem p.item)
        (legacy || optTruthyEq p.nature pr.nature) &&
        (legacy || optTruthyEq pokemonAbility pr.ability) &&
        (decide (gen < 2) || optTruthyEq pokemonItem pr.item) &&
        movesMatch p.moves pr.moves &&
        ivsOk legacy defaultIv p.ivs pr.ivs &&
        (legacy || evsOk p.evs pr.evs)
  | _, _ => false

/-- A concrete legacy (gen 1) combatant: only its Tackle move and an hp IV of
0 are known. -/
def legacyPokemonCE : CalcdexPokemon :=
  { speciesForme := "Mew", moves := ["Tackle"], ivs := { hp := some 0 } }

/-- A concrete legacy preset carrying a source, Tackle and no IVs (so every
IV defaults). -/
def legacyPresetCE : CalcdexPokemonPreset :=
  { source := some "smogon", moves := ["Tackle"] }

/-- A concrete gen-9 combatant matching `modernPresetCE`. -/
def modernPokemonCE : CalcdexPokemon :=
  { speciesForme := "Garchomp", nature := some "Jolly", ability := some "Rough Skin",
    item := some "Leftovers", moves := ["Earthquake"],
    ivs := { atk := some 31 }, evs := { atk := some 252 } }

/-- A concrete gen-9 preset matching `modernPokemonCE`. -/
def modernPresetCE : CalcdexPokemonPreset :=
  { source := some "smogon", nature := some "Jolly", ability := some "Rough Skin",
    item := some "Leftovers", moves := ["Earthquake"], evs := { atk := some 252 } }

/-- A transformed combatant that also carries the `powertrick` volatile and
whose transformed atk and def differ. -/
def transformPtCE : CalcdexPokemon :=
  { calcdexId := some "ce2a", speciesForme := "Ditto", serverSourced := true,
    transformedForme := some "Mew",
    transformedBaseStats := some { atk := 100, defn := 50, spa := 100, spd := 100, spe := 100 },
    baseStats := { hp := 48, atk := 48, defn := 48, spa := 48, spd := 48, spe := 48 },
    volatiles := ["powertrick"] }

/-- A transformed combatant without `powertrick`. -/
def transformCE : CalcdexPokemon :=
  { calcdexId := some "ce2b", speciesForme := "Ditto", serverSourced := true,
    transformedForme := some "Mew",
    transformedBaseStats := some { atk := 100, defn := 100, spa := 100, spd := 100, spe := 100 },
    baseStats := { hp := 48, atk := 48, defn := 48, spa := 48, spd := 48, spe := 48 } }

/-- A gen-1 transformed combatant whose transformed special stats disagree. -/
def gen1TransformCE : CalcdexPokemon :=
  { calcdexId := some "ce3", speciesForme := "Ditto", serverSourced := true,
    transformedForme := some "Mewtwo",
    transformedBaseStats := some { atk := 110, defn := 90, spa := 154, spd := 90, spe := 130 },
    baseStats := { hp := 48, atk := 48, defn := 48, spa := 48, spd := 48, spe := 48 } }

/-- A combatant resolving to the Beads of Ruin ability. -/
def ruinPokemonCE : CalcdexPokemon :=
  { calcdexId := some "ce4", speciesForme := "Chi-Yu", serverSourced := true,
    ability := some "Beads of Ruin" }

/-- An opponent resolving to the identical Beads of Ruin ability. -/
def ruinOpponentCE : CalcdexPokemon :=
  { calcdexId := some "ce4o", speciesForme := "Chi-Yu", ability := some "Beads of Ruin" }

/-- An opponent resolving to a different Ruin ability (Sword of Ruin). -/
def ruinOpponent2CE : CalcdexPokemon :=
  { calcdexId := some "ce4p", speciesForme := "Chien-Pao", ability := some "Sword of Ruin" }

/-- A Protean combatant with a manual type override and no `typechange`
state (its toggle flag is off). -/
def proteanCE : CalcdexPokemon :=
  { calcdexId := some "ce8", speciesForme := "Greninja", serverSourced := true,
    ability := some "Protean", abilityToggled := false,
    types := ["Water", "Dark"], dirtyTypes := ["Poison"] }

/-- A transformed combatant with a dirty base-stat override on hp. -/
def c1TransformDirtyCE : CalcdexPokemon :=
  { calcdexId := some "ce1", speciesForme := "Ditto", serverSourced := true,
    transformedForme := some "Mew",
    transformedBaseStats := some { atk := 100, defn := 100, spa := 100, spd := 100, spe := 100 },
    baseStats := { hp := 100, atk := 50, defn := 50, spa := 50, spd := 50, spe := 50 },
    dirtyBaseStats := { hp := some 77 } }

/-- A plain (untransformed) gen-1 combatant with a special-attack boost. -/
def gen1PlainCE : CalcdexPokemon :=
  { calcdexId := some "ce3b", speciesForme := "Alakazam", serverSourced := true,
    baseStats := { hp := 55, atk := 50, defn := 45, spa := 135, spd := 95, spe := 120 },
    boosts := { spa := some 2 } }

/-- The adapter output for `gen1PlainCE` in gen 1. -/
def gen1PlainOpts : SmogonPokemonOptions := buildOptions 1 gen1PlainCE none none none

/-- A combatant with overrides on item, status, ability, boosts, base stats,
types and faint counter, each differing from its base counterpart. -/
def c1DirtyCE : CalcdexPokemon :=
  { calcdexId := some "ce1b", speciesForme := "Garchomp", serverSourced := true,
    item := some "Choice Scarf", dirtyItem := some "Leftovers",
    status := some "psn", dirtyStatus := some "brn",
    ability := some "Rough Skin", dirtyAbility := some "Sand Veil",
    boosts := { atk := some 1 }, dirtyBoosts := { atk := some 2 },
    baseStats := { hp := 108, atk := 130, defn := 95, spa := 80, spd := 85, spe := 102 },
    dirtyBaseStats := { atk := some 140 },
    types := ["Dragon", "Ground"], dirtyTypes := ["Water"],
    faintCounter := 1, dirtyFaintCounter := some 3 }

/-! ## Supporting lemmas -/

theorem digitChar_isDigit : ∀ d < 10, (digitChar d).isDigit = true := by decide

theorem natToDigitsAux_isDigit (fuel : Nat) :
    ∀ n, ∀ c ∈ natToDigitsAux fuel n, c.isDigit = true := by
  induction fuel with
  | zero => intro n c hc; simp [natToDigitsAux] at hc
  | succ f ih =>
    intro n c hc
    unfold natToDigitsAux at hc
    by_cases h : n = 0
    · simp [h] at hc
    · rw [if_neg h] at hc
      rcases List.mem_cons.mp hc with rfl | hmem
      · exact digitChar_isDigit (n % 10) (Nat.mod_lt _ (by omega))
      · exact ih (n / 10) c hmem

theorem natToDigitsAux_fuel_ne (f n : Nat) (h : n ≠ 0) :
    natToDigitsAux (f + 1) n = digitChar (n % 10) :: natToDigitsAux f (n / 10) := by
  rw [natToDigitsAux, if_neg h]

theorem keepChar_of_isDigit (c : Char) (h : c.isDigit = true) :
    (c ≠ ',' && c ≠ ';' && c ≠ '|') = true := by
  rcases eq_or_ne c ',' with rfl | h1
  · exact absurd h (by decide)
  rcases eq_or_ne c ';' with rfl | h2
  · exact absurd h (by decide)
  rcases eq_or_ne c '|' with rfl | h3
  · exact absurd h (by decide)
  simp [h1, h2, h3]

theorem stripDelims_eq_self (s : String)
    (h : ∀ c ∈ s.data, (c ≠ ',' && c ≠ ';' && c ≠ '|') = true) :
    stripDelims s = s := by
  unfold stripDelims
  cases s with
  | mk l => exact congrArg String.mk (List.filter_eq_self.mpr h)

theorem natRepr_isDigit (n : Nat) : ∀ c ∈ (natRepr n).data, c.isDigit = true := by
  by_cases h : n = 0
  · intro c hc
    rw [natRepr, if_pos h] at hc
    have hc0 : c ∈ ['0'] := hc
    simp only [List.mem_singleton] at hc0
    subst hc0; decide
  · intro c hc
    rw [natRepr, if_neg h] at hc
    have hc2 : c ∈ (natToDigitsAux n n).reverse := hc
    exact natToDigitsAux_isDigit n n c (List.mem_reverse.mp hc2)

theorem natRepr_ne_empty (n : Nat) : natRepr n ≠ "" := by
  by_cases h : n = 0
  · rw [natRepr, if_pos h]; decide
  · rw [natRepr, if_neg h]
    intro heq
    have hdata : ((natToDigitsAux n n).reverse : List Char) = [] := congrArg String.data heq
    rcases Nat.exists_eq_succ_of_ne_zero h with ⟨m, hm⟩
    rw [hm, natToDigitsAux_fuel_ne m (m + 1) (Nat.succ_ne_zero m)] at hdata
    simp at hdata

theorem intRepr_keeps (n : Int) :
    ∀ c ∈ (intRepr n).data, (c ≠ ',' && c ≠ ';' && c ≠ '|') = true := by
  by_cases h : n < 0
  · intro c hc
    rw [intRepr, if_pos h, String.data_append] at hc
    rcases List.mem_append.mp hc with hm | hm
    · have hm2 : c ∈ ['-'] := hm
      simp only [List.mem_singleton] at hm2
      subst hm2; decide
    · exact keepChar_of_isDigit c (natRepr_isDigit _ c hm)
  · intro c hc
    rw [intRepr, if_neg h] at hc
    exact keepChar_of_isDigit c (natRepr_isDigit _ c hc)

theorem intRepr_ne_empty (n : Int) : intRepr n ≠ "" := by
  by_cases h : n < 0
  · rw [intRepr, if_pos h]
    intro heq
    have hdata : ("-" ++ natRepr (-n).toNat).data = ([] : List Char) := congrArg String.data heq
    rw [String.data_append] at hdata
    simp at hdata
  · rw [intRepr, if_neg h]
    exact natRepr_ne_empty _

theorem dehydrateValue_num (n : Int) : dehydrateValue (.num n) = intRepr n := by
  have h1 : dehydrateValue (.num n) =
      (if stripDelims (intRepr n) = "" then "?" else stripDelims (intRepr n)) := rfl
  rw [h1, stripDelims_eq_self _ (intRepr_keeps n), if_neg (intRepr_ne_empty n)]

theorem dehydrateValue_statSlot (v : Option StatsO) (f : StatsO → Option Int) :
    dehydrateValue (statSlot v f) = specStatSlot (v.bind f) := by
  cases v with
  | none => rfl
  | some t =>
    cases h : f t with
    | none =>
      have h1 : statSlot (some t) f = JSVal.undef := by simp [statSlot, h]
      have h2 : (some t).bind f = none := by simp [h]
      rw [h1, h2]; rfl
    | some n =>
      have h1 : statSlot (some t) f = JSVal.num n := by simp [statSlot, h]
      have h2 : (some t).bind f = some n := by simp [h]
      rw [h1, h2]
      exact dehydrateValue_num n

/-! ## Claim C9 -/

/-- C9: for every input stats table, `dehydrateStatsTable` with the default
delimiter produces exactly six `/`-joined slots in the fixed order HP,
Attack, Defense, Special-Attack, Special-Defense, Speed, each absent stat
encoded as the single placeholder `?` and each present stat as its decimal
text; in particular the spec's example evaluates to `"31/0/31/31/31/31"`. -/
theorem claim_C9_dehydrateStatsTable_slots :
    (∀ v : Option StatsO,
      dehydrateStatsTable v "/" =
        String.intercalate "/"
          [specStatSlot (v.bind fun t => t.hp), specStatSlot (v.bind fun t => t.atk),
           specStatSlot (v.bind fun t => t.defn), specStatSlot (v.bind fun t => t.spa),
           specStatSlot (v.bind fun t => t.spd), specStatSlot (v.bind fun t => t.spe)]) ∧
    dehydrateStatsTable
      (some { hp := some 31, atk := some 0, defn := some 31,
              spa := some 31, spd := some 31, spe := some 31 }) "/" = "31/0/31/31/31/31" := by
  constructor
  · intro v
    unfold dehydrateStatsTable
    simp only [List.map, dehydrateValue_statSlot]
  · decide

/-! ## Claim C10 -/

/-- C10 counterexample: the claim says every dehydrator returns the
placeholder `?` or an empty string on absent input, never a non-string;
but `dehydrateArray` on an absent (null/undefined) input short-circuits its
optional chain and returns no string at all (JS `undefined`). -/
theorem claim_C10_counterexample_dehydrateArray_none :
    dehydrateArray none "/" = none ∧
    dehydrateArray none "/" ≠ some "?" ∧ dehydrateArray none "/" ≠ some "" := by decide

/-- C10 (amended): every dehydrator is a total function (never throws), and
on absent (null/undefined) input: `dehydrateValue` yields the placeholder
`?`, `dehydratePlayerSide` and `dehydratePerSide` yield the empty string,
while `dehydrateBoolean` yields `n`, `dehydrateStatsTable` yields six
placeholder slots `?/?/?/?/?/?`, and `dehydrateArray` yields no result
(JS `undefined`) rather than a string. -/
theorem claim_C10_amended_absent_inputs :
    dehydrateBoolean .null = "n" ∧ dehydrateBoolean .undef = "n" ∧
    dehydrateValue .null = "?" ∧ dehydrateValue .undef = "?" ∧
    dehydrateArray none "/" = none ∧
    dehydrateStatsTable none "/" = "?/?/?/?/?/?" ∧
    dehydratePlayerSide none "/" = "" ∧
    dehydratePerSide none "/" "," = "" := by decide

/-! ## Preset Matcher lemmas -/

theorem appliedPreset_parts (format : String) (p : CalcdexPokemon) (pr : CalcdexPokemonPreset)
    (h : appliedPreset format (some p) (some pr) = true) :
    movesMatch p.moves pr.moves = true ∧
    ivsOk (detectLegacyGen (detectGenFromFormat format))
      (if detectLegacyGen (detectGenFromFormat format) then 30 else 31) p.ivs pr.ivs = true ∧
    (detectLegacyGen (detectGenFromFormat format) = false → evsOk p.evs pr.evs = true) := by
  by_cases hf : format = ""
  · simp [appliedPreset, hf] at h
  by_cases hs : p.speciesForme = ""
  · simp [appliedPreset, hf, hs] at h
  by_cases hsrc : (pr.source.getD "") = ""
  · simp [appliedPreset, hf, hs, hsrc] at h
  by_cases hg : detectGenFromFormat format = 0
  · simp [appliedPreset, hf, hs, hsrc, hg] at h
  simp only [appliedPreset, if_neg hf, if_neg hs, if_neg hsrc, if_neg hg] at h
  simp only [Bool.and_eq_true] at h
  obtain ⟨⟨⟨⟨⟨h1, h2⟩, h3⟩, h4⟩, h5⟩, h6⟩ := h
  refine ⟨h4, h5, ?_⟩
  intro hleg
  rw [hleg] at h6
  simpa using h6

theorem ivEntryOk_skipped_legacy (d : Int) (pv prv : Option Int) :
    ivEntryOk true d true pv prv = true := by
  cases pv <;> simp [ivEntryOk]

theorem ivsOk_legacy_update (d : Int) (t prt : StatsO) (x y : Option Int) :
    ivsOk true d { t with hp := x, spd := y } prt = ivsOk true d t prt := by
  simp [ivsOk, ivEntryOk_skipped_legacy]

theorem ivEntryOk_required (leg : Bool) (d : Int) (v : Int) (prv : Option Int)
    (h : ivEntryOk leg d false (some v) prv = true) : prv.getD d = v := by
  simp only [ivEntryOk, Bool.and_false, Bool.false_or, beq_iff_eq] at h
  exact h

theorem ivEntryOk_nonlegacy_required (d : Int) (v : Int) (prv : Option Int)
    (h : ivEntryOk false d true (some v) prv = true) : prv.getD d = v := by
  simp only [ivEntryOk, Bool.false_and, Bool.false_or, beq_iff_eq] at h
  exact h

theorem evEntryOk_required (v : Int) (prv : Option Int)
    (h : evEntryOk (some v) prv = true) : prv.getD 0 = v := by
  simp only [evEntryOk, beq_iff_eq] at h
  exact h

theorem appliedPreset_legacy_independent (format : String) (p : CalcdexPokemon)
    (pr : CalcdexPokemonPreset)
    (hleg : detectLegacyGen (detectGenFromFormat format) = true)
    (x y : Option Int) (evs2 : StatsO) :
    appliedPreset format
      (some { p with ivs := { p.ivs with hp := x, spd := y }, evs := evs2 }) (some pr) =
      appliedPreset format (some p) (some pr) := by
  simp only [appliedPreset, hleg, ivsOk_legacy_update, Bool.true_or, Bool.true_and]

/-! ## Claim C6 -/

/-- C6: preset matching treats moves directionally — the move conjunct of
`appliedPreset` holds exactly when both the combatant's and the preset's move
lists are non-empty and every preset move appears among the combatant's
moves (order irrelevant, superset allowed, set equality not required); and a
successful `appliedPreset` always implies that move conjunct. -/
theorem claim_C6_moves_directional :
    (∀ (pokemonMoves presetMoves : List String),
      movesMatch pokemonMoves presetMoves = true ↔
        pokemonMoves ≠ [] ∧ presetMoves ≠ [] ∧ ∀ m ∈ presetMoves, m ∈ pokemonMoves) ∧
    (∀ (format : String) (p : CalcdexPokemon) (pr : CalcdexPokemonPreset),
      appliedPreset format (some p) (some pr) = true →
      movesMatch p.moves pr.moves = true) := by
  constructor
  · intro pm prm
    simp [movesMatch, List.isEmpty_iff, List.all_eq_true, and_assoc]
  · intro f p pr h
    exact (appliedPreset_parts f p pr h).1

/-- C6 witness: a combatant with four moves matches a preset requiring only
two of them, and the concrete legacy example satisfies the move conjunct. -/
theorem claim_C6_moves_directional_witness :
    movesMatch ["Surf", "Ice Beam", "Thunderbolt", "Protect"] ["Surf", "Ice Beam"] = true ∧
    movesMatch legacyPokemonCE.moves legacyPresetCE.moves = true := by
  refine ⟨(claim_C6_moves_directional.1 _ _).mpr (by decide),
    claim_C6_moves_directional.2 "gen1ou" legacyPokemonCE legacyPresetCE (by decide)⟩

/-! ## Claim C7 -/

/-- C7 counterexample: the claim says the IV comparison skips exactly the
special-defense field in legacy generations, so a legacy combatant's hp IV
would have to equal the preset's (defaulted to 30); but `appliedPreset`
skips the hp IV in legacy generations as well — the concrete preset applies
even though the combatant's hp IV is 0 and the preset's default is 30. -/
theorem claim_C7_counterexample_legacy_hp_skipped :
    appliedPreset "gen1ou" (some legacyPokemonCE) (some legacyPresetCE) = true ∧
    legacyPokemonCE.ivs.hp = some 0 ∧
    legacyPresetCE.ivs.hp.getD 30 ≠ 0 := by decide

/-- C7 (amended): in `appliedPreset`, the IV comparison skips exactly the hp
and special-defense fields in legacy generations — every other IV entry of
the combatant must equal the preset's IV defaulted to 30 (legacy) or 31
(otherwise), and with a non-legacy generation the hp and special-defense
entries are required too; the EV comparison is skipped entirely for legacy
generations (the result is independent of the combatant's EVs and of its
hp/spd IVs there) and required, with missing preset EVs defaulting to 0,
otherwise. -/
theorem claim_C7_amended_iv_ev_rules (format : String) (p : CalcdexPokemon)
    (pr : CalcdexPokemonPreset) :
    (appliedPreset format (some p) (some pr) = true →
      (∀ v : Int, p.ivs.atk = some v →
        pr.ivs.atk.getD (if detectLegacyGen (detectGenFromFormat format) then 30 else 31) = v) ∧
      (∀ v : Int, p.ivs.defn = some v →
        pr.ivs.defn.getD (if detectLegacyGen (detectGenFromFormat format) then 30 else 31) = v) ∧
      (∀ v : Int, p.ivs.spa = some v →
        pr.ivs.spa.getD (if detectLegacyGen (detectGenFromFormat format) then 30 else 31) = v) ∧
      (∀ v : Int, p.ivs.spe = some v →
        pr.ivs.spe.getD (if detectLegacyGen (detectGenFromFormat format) then 30 else 31) = v) ∧
      (detectLegacyGen (detectGenFromFormat format) = false →
        (∀ v : Int, p.ivs.hp = some v → pr.ivs.hp.getD 31 = v) ∧
        (∀ v : Int, p.ivs.spd = some v → pr.ivs.spd.getD 31 = v) ∧
        (∀ v : Int, p.evs.hp = some v → pr.evs.hp.getD 0 = v) ∧
        (∀ v : Int, p.evs.atk = some v → pr.evs.atk.getD 0 = v) ∧
        (∀ v : Int, p.evs.defn = some v → pr.evs.defn.getD 0 = v) ∧
        (∀ v : Int, p.evs.spa = some v → pr.evs.spa.getD 0 = v) ∧
        (∀ v : Int, p.evs.spd = some v → pr.evs.spd.getD 0 = v) ∧
        (∀ v : Int, p.evs.spe = some v → pr.evs.spe.getD 0 = v))) ∧
    (detectLegacyGen (detectGenFromFormat format) = true →
      ∀ (x y : Option Int) (evs2 : StatsO),
        appliedPreset format
          (some { p with ivs := { p.ivs with hp := x, spd := y }, evs := evs2 }) (some pr) =
          appliedPreset format (some p) (some pr)) := by
  constructor
  · intro h
    obtain ⟨hm, hivs, hevs⟩ := appliedPreset_parts format p pr h
    simp only [ivsOk, Bool.and_eq_true] at hivs
    obtain ⟨⟨⟨⟨⟨i1, i2⟩, i3⟩, i4⟩, i5⟩, i6⟩ := hivs
    refine ⟨?_, ?_, ?_, ?_, ?_⟩
    · intro v hv; rw [hv] at i2; exact ivEntryOk_required _ _ _ _ i2
    · intro v hv; rw [hv] at i3; exact ivEntryOk_required _ _ _ _ i3
    · intro v hv; rw [hv] at i4; exact ivEntryOk_required _ _ _ _ i4
    · intro v hv; rw [hv] at i6; exact ivEntryOk_required _ _ _ _ i6
    · intro hleg
      have hdiv :
          (if detectLegacyGen (detectGenFromFormat format) = true then (30 : Int) else 31) = 31 := by
        rw [hleg]; simp
      rw [hdiv, hleg] at i1 i5
      have hev := hevs hleg
      simp only [evsOk, Bool.and_eq_true] at hev
      obtain ⟨⟨⟨⟨⟨e1, e2⟩, e3⟩, e4⟩, e5⟩, e6⟩ := hev
      refine ⟨?_, ?_, ?_, ?_, ?_, ?_, ?_, ?_⟩
      · intro v hv; rw [hv] at i1; exact ivEntryOk_nonlegacy_required _ _ _ i1
      · intro v hv; rw [hv] at i5; exact ivEntryOk_nonlegacy_required _ _ _ i5
      · intro v hv; rw [hv] at e1; exact evEntryOk_required _ _ e1
      · intro v hv; rw [hv] at e2; exact evEntryOk_required _ _ e2
      · intro v hv; rw [hv] at e3; exact evEntryOk_required _ _ e3
      · intro v hv; rw [hv] at e4; exact evEntryOk_required _ _ e4
      · intro v hv; rw [hv] at e5; exact evEntryOk_required _ _ e5
      · intro v hv; rw [hv] at e6; exact evEntryOk_required _ _ e6
  · intro hleg x y evs2
    exact appliedPreset_legacy_independent format p pr hleg x y evs2

/-- C7 witness: the amended rules applied to the concrete gen-9 pair — the
atk IV of the preset defaults to 31 and matches, and the preset's atk EV 252
is required and matches. -/
theorem claim_C7_amended_witness :
    modernPresetCE.ivs.atk.getD
      (if detectLegacyGen (detectGenFromFormat "gen9ou") then 30 else 31) = 31 ∧
    modernPresetCE.evs.atk.getD 0 = 252 := by
  have h := (claim_C7_amended_iv_ev_rules "gen9ou" modernPokemonCE modernPresetCE).1 (by decide)
  exact ⟨h.1 31 (by decide), ((h.2.2.2.2 (by decide)).2.2.2.1) 252 (by decide)⟩

/-! ## Matchup Adapter stage lemmas -/

theorem applyLegacySpc_ability (gen : Nat) (o : SmogonPokemonOptions) :
    (applyLegacySpc gen o).ability = o.ability := by
  simp only [applyLegacySpc]
  split <;> split <;> rfl

theorem applyLegacySpc_item (gen : Nat) (o : SmogonPokemonOptions) :
    (applyLegacySpc gen o).item = o.item := by
  simp only [applyLegacySpc]
  split <;> split <;> rfl

theorem applyLegacySpc_status (gen : Nat) (o : SmogonPokemonOptions) :
    (applyLegacySpc gen o).status = o.status := by
  simp only [applyLegacySpc]
  split <;> split <;> rfl

theorem applyLegacySpc_alliesFainted (gen : Nat) (o : SmogonPokemonOptions) :
    (applyLegacySpc gen o).alliesFainted = o.alliesFainted := by
  simp only [applyLegacySpc]
  split <;> split <;> rfl

theorem applyLegacySpc_overridesTypes (gen : Nat) (o : SmogonPokemonOptions) :
    (applyLegacySpc gen o).overridesTypes = o.overridesTypes := by
  simp only [applyLegacySpc]
  split <;> split <;> rfl

theorem applyProteanMask_eq (p : CalcdexPokemon) (abilityId : Option String)
    (o : SmogonPokemonOptions) :
    applyProteanMask p abilityId o =
      if (abilityId == some "protean" || abilityId == some "libero") && !p.abilityToggled then
        { o with ability := some "Pressure" }
      else o := rfl

theorem applyBoostMask_eq (abilityId : Option String) (o : SmogonPokemonOptions) :
    applyBoostMask abilityId o =
      if abilityId == some "intrepidsword" || abilityId == some "download" then
        { o with ability := some "Pressure" }
      else o := rfl

theorem applyProteanMask_overridesBaseStats (p : CalcdexPokemon) (abilityId : Option String)
    (o : SmogonPokemonOptions) :
    (applyProteanMask p abilityId o).overridesBaseStats = o.overridesBaseStats := by
  unfold applyProteanMask
  split <;> rfl

theorem applyBoostMask_overridesBaseStats (abilityId : Option String)
    (o : SmogonPokemonOptions) :
    (applyBoostMask abilityId o).overridesBaseStats = o.overridesBaseStats := by
  unfold applyBoostMask
  split <;> rfl

theorem applyRuinMask_overridesBaseStats (legacy : Bool) (abilityId : Option String)
    (opp : Option CalcdexPokemon) (o : SmogonPokemonOptions) :
    (applyRuinMask legacy abilityId opp o).overridesBaseStats = o.overridesBaseStats := by
  unfold applyRuinMask
  repeat' first | rfl | split

theorem maskStages_proj (p : CalcdexPokemon) (legacy : Bool) (abilityId : Option String)
    (opp : Option CalcdexPokemon) (o : SmogonPokemonOptions) :
    (applyRuinMask legacy abilityId opp (applyBoostMask abilityId (applyProteanMask p abilityId o))).item = o.item ∧
    (applyRuinMask legacy abilityId opp (applyBoostMask abilityId (applyProteanMask p abilityId o))).status = o.status ∧
    (applyRuinMask legacy abilityId opp (applyBoostMask abilityId (applyProteanMask p abilityId o))).alliesFainted = o.alliesFainted ∧
    (applyRuinMask legacy abilityId opp (applyBoostMask abilityId (applyProteanMask p abilityId o))).boosts = o.boosts ∧
    (applyRuinMask legacy abilityId opp (applyBoostMask abilityId (applyProteanMask p abilityId o))).ivs = o.ivs ∧
    (applyRuinMask legacy abilityId opp (applyBoostMask abilityId (applyProteanMask p abilityId o))).evs = o.evs ∧
    (applyRuinMask legacy abilityId opp (applyBoostMask abilityId (applyProteanMask p abilityId o))).overridesTypes = o.overridesTypes ∧
    (applyRuinMask legacy abilityId opp (applyBoostMask abilityId (applyProteanMask p abilityId o))).overridesBaseStats = o.overridesBaseStats := by
  refine ⟨?_, ?_, ?_, ?_, ?_, ?_, ?_, ?_⟩ <;>
    (unfold applyRuinMask applyBoostMask applyProteanMask; repeat' first | rfl | split)

theorem applyTransform_ability (p : CalcdexPokemon) (o : SmogonPokemonOptions) :
    (applyTransform p o).ability = o.ability := by
  unfold applyTransform
  split <;> rfl

theorem applyTransform_proj (p : CalcdexPokemon) (o : SmogonPokemonOptions) :
    (applyTransform p o).item = o.item ∧
    (applyTransform p o).status = o.status ∧
    (applyTransform p o).alliesFainted = o.alliesFainted ∧
    (applyTransform p o).boosts = o.boosts ∧
    (applyTransform p o).ivs = o.ivs ∧
    (applyTransform p o).evs = o.evs ∧
    (applyTransform p o).overridesTypes = o.overridesTypes := by
  refine ⟨?_, ?_, ?_, ?_, ?_, ?_, ?_⟩ <;> (unfold applyTransform; repeat' first | rfl | split)

theorem applyPowerTrick_ability (p : CalcdexPokemon) (o : SmogonPokemonOptions) :
    (applyPowerTrick p o).ability = o.ability := by
  unfold applyPowerTrick
  split <;> rfl

theorem applyPowerTrick_proj (p : CalcdexPokemon) (o : SmogonPokemonOptions) :
    (applyPowerTrick p o).item = o.item ∧
    (applyPowerTrick p o).status = o.status ∧
    (applyPowerTrick p o).alliesFainted = o.alliesFainted ∧
    (applyPowerTrick p o).boosts = o.boosts ∧
    (applyPowerTrick p o).ivs = o.ivs ∧
    (applyPowerTrick p o).evs = o.evs ∧
    (applyPowerTrick p o).overridesTypes = o.overridesTypes := by
  refine ⟨?_, ?_, ?_, ?_, ?_, ?_, ?_⟩ <;> (unfold applyPowerTrick; repeat' first | rfl | split)

theorem applyPowerTrick_not (p : CalcdexPokemon) (o : SmogonPokemonOptions)
    (h : ¬ p.volatiles.contains "powertrick" = true) :
    applyPowerTrick p o = o := by
  unfold applyPowerTrick
  split
  · rename_i hc
    rw [Bool.and_eq_true] at hc
    exact absurd hc.2 h
  · rfl

theorem createSmogonPokemon_some (format : String) (p : CalcdexPokemon)
    (mv : Option String) (opp : Option CalcdexPokemon) (fld : Option CalcdexBattleField)
    (hg : 1 ≤ detectGenFromFormat format) (hid : (p.calcdexId.getD "") ≠ "")
    (hsf : p.speciesForme ≠ "") :
    createSmogonPokemon format (some p) mv opp fld =
      some (buildOptions (detectGenFromFormat format) p mv opp fld) := by
  unfold createSmogonPokemon getGenDexForFormat
  rw [if_pos hg]
  have h1 : ¬ (detectGenFromFormat format < 1) := by omega
  simp [h1, hid, hsf]

/-! ## Claim C5 -/

/-- C5: whenever the generation cannot be determined from the format, or the
combatant record is absent, or it lacks a `speciesForme` or `calcdexId`, the
adapter returns no result; the embedding is a total function, witnessing
that the source returns `null` there rather than throwing. -/
theorem claim_C5_adapter_guard (format : String) (pokemon : Option CalcdexPokemon)
    (mv : Option String) (opp : Option CalcdexPokemon) (fld : Option CalcdexBattleField)
    (h : detectGenFromFormat format < 1 ∨ pokemon = none ∨
      (∃ p, pokemon = some p ∧ (p.calcdexId.getD "" = "" ∨ p.speciesForme = ""))) :
    createSmogonPokemon format pokemon mv opp fld = none := by
  unfold createSmogonPokemon getGenDexForFormat
  rcases h with hg | rfl | ⟨p, rfl, hp⟩
  · rw [if_neg (by omega)]
  · by_cases hge : detectGenFromFormat format ≥ 1
    · rw [if_pos hge]
    · rw [if_neg hge]
  · by_cases hge : detectGenFromFormat format ≥ 1
    · rw [if_pos hge]
      rcases hp with h1 | h1 <;> simp [h1]
    · rw [if_neg hge]

/-- C5 witness: an undeterminable generation, an absent combatant, and a
combatant without `calcdexId` all make the adapter return no result. -/
theorem claim_C5_adapter_guard_witness :
    createSmogonPokemon "ou" (some { speciesForme := "Pikachu", calcdexId := some "x" })
      none none none = none ∧
    createSmogonPokemon "gen9ou" none none none none = none ∧
    createSmogonPokemon "gen9ou" (some { speciesForme := "Pikachu" }) none none none = none := by
  refine ⟨?_, ?_, ?_⟩
  · exact claim_C5_adapter_guard "ou" _ none none none (Or.inl (by decide))
  · exact claim_C5_adapter_guard "gen9ou" none none none none (Or.inr (Or.inl rfl))
  · exact claim_C5_adapter_guard "gen9ou" _ none none none
      (Or.inr (Or.inr ⟨_, rfl, Or.inl rfl⟩))

theorem applyTransform_not (p : CalcdexPokemon) (o : SmogonPokemonOptions)
    (h : (p.transformedForme.getD "") = "") : applyTransform p o = o := by
  unfold applyTransform
  rw [if_neg (by simp [h])]

/-! ## Claim C2 -/

/-- C2 counterexample: the claim says every transformed combatant's non-HP
base stats equal the transformed forme's; but the `powertrick` volatile swaps
the atk and def overrides afterwards — this transformed combatant's
transformed atk is 100, yet the produced record carries atk 50 (the
transformed def). -/
theorem claim_C2_counterexample_powertrick :
    (createSmogonPokemon "gen9ou" (some transformPtCE) none none none).map
      (fun o => o.overridesBaseStats.atk) = some (some 50) ∧
    transformPtCE.transformedBaseStats =
      some { atk := 100, defn := 50, spa := 100, spd := 100, spe := 100 } ∧
    (100 : Int) ≠ 50 := by decide

/-- C2 (amended): for every transformed combatant (non-empty
`transformedForme`, transformed base stats present) that does not carry the
`powertrick` volatile, the produced base-stat table has HP equal to the
original (pre-transform) `baseStats.hp` and every other stat equal to the
corresponding `transformedBaseStats` entry; with `powertrick` the atk and
def entries are additionally swapped afterwards. -/
theorem claim_C2_amended_transform (format : String) (p : CalcdexPokemon)
    (mv : Option String) (opp : Option CalcdexPokemon) (fld : Option CalcdexBattleField)
    (hg : 1 ≤ detectGenFromFormat format) (hid : (p.calcdexId.getD "") ≠ "")
    (hsf : p.speciesForme ≠ "")
    (tf : String) (htf : p.transformedForme = some tf) (htfne : tf ≠ "")
    (tbs : Stats5) (htbs : p.transformedBaseStats = some tbs)
    (hpt : ¬ p.volatiles.contains "powertrick" = true) :
    (createSmogonPokemon format (some p) mv opp fld).map (fun o => o.overridesBaseStats) =
      some { hp := some p.baseStats.hp, atk := some tbs.atk, defn := some tbs.defn,
             spa := some tbs.spa, spd := some tbs.spd, spe := some tbs.spe } := by
  rw [createSmogonPokemon_some format p mv opp fld hg hid hsf]
  simp only [Option.map_some']
  unfold buildOptions
  rw [applyPowerTrick_not p _ hpt]
  have hcond : (p.transformedForme.getD "") ≠ "" := by rw [htf]; exact htfne
  unfold applyTransform
  rw [if_pos hcond, htbs]

/-- C2 witness: the amended transformation rule at a concrete transformed
combatant — HP stays the original base 48, the rest come from the
transformed forme. -/
theorem claim_C2_amended_transform_witness :
    (createSmogonPokemon "gen9ou" (some transformCE) none none none).map
      (fun o => o.overridesBaseStats) =
      some { hp := some 48, atk := some 100, defn := some 100,
             spa := some 100, spd := some 100, spe := some 100 } :=
  claim_C2_amended_transform "gen9ou" transformCE none none none
    (by decide) (by decide) (by decide) "Mew" rfl (by decide)
    { atk := 100, defn := 100, spa := 100, spd := 100, spe := 100 } rfl (by decide)

/-! ## Claim C3 -/

theorem applyLegacySpc_gen1_spc (o : SmogonPokemonOptions) :
    (applyLegacySpc 1 o).ivs.spd = (applyLegacySpc 1 o).ivs.spa ∧
    (applyLegacySpc 1 o).evs.spd = (applyLegacySpc 1 o).evs.spa ∧
    (applyLegacySpc 1 o).boosts.spd = (applyLegacySpc 1 o).boosts.spa ∧
    (applyLegacySpc 1 o).overridesBaseStats.spd = (applyLegacySpc 1 o).overridesBaseStats.spa := by
  refine ⟨rfl, rfl, rfl, ?_⟩
  have hleg : detectLegacyGen 1 = true := rfl
  simp only [applyLegacySpc, hleg, eq_self_iff_true, if_true]
  split
  · rfl
  · rename_i h
    exact not_not.mp h

theorem applyPowerTrick_obs_spc (p : CalcdexPokemon) (o : SmogonPokemonOptions) :
    (applyPowerTrick p o).overridesBaseStats.spa = o.overridesBaseStats.spa ∧
    (applyPowerTrick p o).overridesBaseStats.spd = o.overridesBaseStats.spd := by
  unfold applyPowerTrick
  constructor <;> (split <;> rfl)

/-- C3 counterexample: the claim says the gen-1 output's special-defense
base stat always equals its special-attack base stat; but transformation
substitutes the transformed forme's stat line after the gen-1 coupling step,
so a gen-1 transformed combatant with transformed spa 154 / spd 90 keeps the
disagreeing values in the produced record. -/
theorem claim_C3_counterexample_gen1_transformed :
    (createSmogonPokemon "gen1ou" (some gen1TransformCE) none none none).map
      (fun o => (o.overridesBaseStats.spd, o.overridesBaseStats.spa)) =
      some (some 90, some 154) ∧
    (90 : Int) ≠ 154 := by decide

/-- C3 (amended): for every combatant evaluated at generation 1 the output's
special-defense IV, EV and boost equal the corresponding special-attack
values; the special-defense base stat equals the special-attack base stat
provided the combatant is not transformed (transformation substitutes the
transformed forme's uncoupled stat line afterwards). -/
theorem claim_C3_amended_gen1_coupling (format : String) (p : CalcdexPokemon)
    (mv : Option String) (opp : Option CalcdexPokemon) (fld : Option CalcdexBattleField)
    (o : SmogonPokemonOptions)
    (hg1 : detectGenFromFormat format = 1)
    (hid : (p.calcdexId.getD "") ≠ "") (hsf : p.speciesForme ≠ "")
    (ho : createSmogonPokemon format (some p) mv opp fld = some o) :
    o.ivs.spd = o.ivs.spa ∧ o.evs.spd = o.evs.spa ∧ o.boosts.spd = o.boosts.spa ∧
    ((p.transformedForme.getD "") = "" →
      o.overridesBaseStats.spd = o.overridesBaseStats.spa) := by
  rw [createSmogonPokemon_some format p mv opp fld (by omega) hid hsf] at ho
  replace ho := Option.some.inj ho
  subst ho
  rw [hg1]
  obtain ⟨hiv, hev, hbo, hob⟩ := applyLegacySpc_gen1_spc (smogonOptionsBase 1 p mv fld)
  refine ⟨?_, ?_, ?_, ?_⟩
  · have e : (buildOptions 1 p mv opp fld).ivs =
        (applyLegacySpc 1 (smogonOptionsBase 1 p mv fld)).ivs := by
      simp only [buildOptions]
      rw [(applyPowerTrick_proj _ _).2.2.2.2.1, (applyTransform_proj _ _).2.2.2.2.1,
        (maskStages_proj _ _ _ _ _).2.2.2.2.1]
    rw [e]; exact hiv
  · have e : (buildOptions 1 p mv opp fld).evs =
        (applyLegacySpc 1 (smogonOptionsBase 1 p mv fld)).evs := by
      simp only [buildOptions]
      rw [(applyPowerTrick_proj _ _).2.2.2.2.2.1, (applyTransform_proj _ _).2.2.2.2.2.1,
        (maskStages_proj _ _ _ _ _).2.2.2.2.2.1]
    rw [e]; exact hev
  · have e : (buildOptions 1 p mv opp fld).boosts =
        (applyLegacySpc 1 (smogonOptionsBase 1 p mv fld)).boosts := by
      simp only [buildOptions]
      rw [(applyPowerTrick_proj _ _).2.2.2.1, (applyTransform_proj _ _).2.2.2.1,
        (maskStages_proj _ _ _ _ _).2.2.2.1]
    rw [e]; exact hbo
  · intro htf
    simp only [buildOptions]
    rw [applyTransform_not p _ htf]
    rw [(applyPowerTrick_obs_spc _ _).2, (applyPowerTrick_obs_spc _ _).1,
      applyRuinMask_overridesBaseStats, applyBoostMask_overridesBaseStats,
      applyProteanMask_overridesBaseStats]
    exact hob

/-- C3 witness: the amended coupling at a concrete untransformed gen-1
combatant — its special-defense IV and boost mirror special-attack. -/
theorem claim_C3_amended_witness :
    gen1PlainOpts.ivs.spd = gen1PlainOpts.ivs.spa ∧
    gen1PlainOpts.boosts.spd = gen1PlainOpts.boosts.spa := by
  have h := claim_C3_amended_gen1_coupling "gen1ou" gen1PlainCE none none none
    gen1PlainOpts rfl (by decide) (by decide) rfl
  exact ⟨h.1, h.2.2.1⟩

theorem applyRuinMask_noruin (legacy : Bool) (aid : String) (opp : Option CalcdexPokemon)
    (o : SmogonPokemonOptions) (h : strEndsWith aid "ofruin" = false) :
    applyRuinMask legacy (some aid) opp o = o := by
  unfold applyRuinMask
  cases opp with
  | none => rfl
  | some q =>
    dsimp only
    rw [if_neg (by simp [h])]

/-! ## Claim C4 -/

/-- C4: in a non-legacy generation, whenever both combatants' resolved
abilities (dirty preferred over base) are Ruin-class and share the identical
ability identity, the adapter substitutes the neutral `Pressure` for the
constructed combatant's ability (and, applied symmetrically to the opposite
call, for both sides); whenever their Ruin-class identities differ, the
Ruin-cancellation rule leaves the ability exactly as the pipeline without
that rule (`abilityBeforeRuin`) would report it. -/
theorem claim_C4_ruin_cancellation (format : String) (p q : CalcdexPokemon)
    (mv : Option String) (fld : Option CalcdexBattleField)
    (hg : 1 ≤ detectGenFromFormat format)
    (hid : (p.calcdexId.getD "") ≠ "") (hsf : p.speciesForme ≠ "")
    (hleg : detectLegacyGen (detectGenFromFormat format) = false)
    (a : String) (ha : resolveAbility (detectLegacyGen (detectGenFromFormat format)) p = some a)
    (haruin : strEndsWith (formatIdStr a) "ofruin" = true)
    (hqs : q.speciesForme ≠ "")
    (b : String) (hb : jsOr q.dirtyAbility q.ability = some b)
    (hbruin : strEndsWith (formatIdStr b) "ofruin" = true) :
    (formatIdStr b = formatIdStr a →
      (createSmogonPokemon format (some p) mv (some q) fld).map (fun o => o.ability) =
        some (some "Pressure")) ∧
    (formatIdStr b ≠ formatIdStr a →
      (createSmogonPokemon format (some p) mv (some q) fld).map (fun o => o.ability) =
        some (abilityBeforeRuin (detectGenFromFormat format) p mv fld)) := by
  rw [createSmogonPokemon_some format p mv (some q) fld hg hid hsf]
  simp only [Option.map_some']
  have ha2 : resolveAbility false p = some a := by rw [← hleg]; exact ha
  constructor
  · intro heq
    simp only [buildOptions]
    rw [applyPowerTrick_ability, applyTransform_ability]
    simp [applyRuinMask, ha, ha2, hleg, haruin, hqs, hb, hbruin, heq]
  · intro hne
    simp only [buildOptions]
    rw [applyPowerTrick_ability, applyTransform_ability]
    simp [applyRuinMask, ha, ha2, hleg, haruin, hqs, hb, hbruin, hne]
    simp [abilityBeforeRuin, ha, ha2, hleg]

/-- C4 witness: two Chi-Yu with the identical Beads of Ruin are both
neutralized to `Pressure`; against a Sword of Ruin opponent the rule leaves
the ability at its pre-rule value. -/
theorem claim_C4_ruin_cancellation_witness :
    (createSmogonPokemon "gen9ou" (some ruinPokemonCE) none (some ruinOpponentCE) none).map
      (fun o => o.ability) = some (some "Pressure") ∧
    (createSmogonPokemon "gen9ou" (some ruinPokemonCE) none (some ruinOpponent2CE) none).map
      (fun o => o.ability) =
      some (abilityBeforeRuin (detectGenFromFormat "gen9ou") ruinPokemonCE none none) := by
  constructor
  · exact (claim_C4_ruin_cancellation "gen9ou" ruinPokemonCE ruinOpponentCE none none
      (by decide) (by decide) (by decide) (by decide)
      "Beads of Ruin" (by decide) (by decide) (by decide)
      "Beads of Ruin" (by decide) (by decide)).1 (by decide)
  · exact (claim_C4_ruin_cancellation "gen9ou" ruinPokemonCE ruinOpponent2CE none none
      (by decide) (by decide) (by decide) (by decide)
      "Beads of Ruin" (by decide) (by decide) (by decide)
      "Sword of Ruin" (by decide) (by decide)).2 (by decide)

/-! ## Claim C8 -/

/-- C8 counterexample: the claim says the adapter does not forward the type
override for an untoggled Protean combatant; but the produced record's type
override is the dirty (overridden) typing `['Poison']`, not the original
`['Water', 'Dark']` — the adapter instead masks the ability. -/
theorem claim_C8_counterexample_types_forwarded :
    (createSmogonPokemon "gen9ou" (some proteanCE) none none none).map
      (fun o => o.overridesTypes) = some [some "Poison", none] ∧
    ((proteanCE.types.map some ++ [none, none]).take 2 : List (Option String)) =
      [some "Water", some "Dark"] ∧
    ([some "Poison", none] : List (Option String)) ≠ [some "Water", some "Dark"] := by decide

/-- C8 (amended): for every combatant whose resolved ability is
Protean/Libero-class with its toggle flag off (the temporary type-change
state not entered), the adapter reports the neutral `Pressure` as the
ability — the type override itself, when present, is still forwarded to the
engine. -/
theorem claim_C8_amended_protean_mask (format : String) (p : CalcdexPokemon)
    (mv : Option String) (opp : Option CalcdexPokemon) (fld : Option CalcdexBattleField)
    (hg : 1 ≤ detectGenFromFormat format)
    (hid : (p.calcdexId.getD "") ≠ "") (hsf : p.speciesForme ≠ "")
    (a : String) (ha : resolveAbility (detectLegacyGen (detectGenFromFormat format)) p = some a)
    (hpl : formatIdStr a = "protean" ∨ formatIdStr a = "libero")
    (htg : p.abilityToggled = false)
    (hdt : p.dirtyTypes ≠ []) :
    (createSmogonPokemon format (some p) mv opp fld).map (fun o => o.ability) =
      some (some "Pressure") ∧
    (createSmogonPokemon format (some p) mv opp fld).map (fun o => o.overridesTypes) =
      some ((p.dirtyTypes.map some ++ [none, none]).take 2) := by
  rw [createSmogonPokemon_some format p mv opp fld hg hid hsf]
  simp only [Option.map_some']
  constructor
  · simp only [buildOptions]
    rw [applyPowerTrick_ability, applyTransform_ability]
    have hpro : strEndsWith (formatIdStr a) "ofruin" = false := by
      rcases hpl with h | h <;> rw [h] <;> decide
    rw [ha]
    simp only [Option.map_some']
    rw [applyRuinMask_noruin _ _ _ _ hpro]
    have hbm : (some (formatIdStr a) == some "intrepidsword" ||
        some (formatIdStr a) == some "download") = false := by
      rcases hpl with h | h <;> rw [h] <;> decide
    rw [applyBoostMask_eq]
    simp only [hbm, Bool.false_eq_true, if_false]
    have hc : ((some (formatIdStr a) == some "protean" ||
        some (formatIdStr a) == some "libero") && !p.abilityToggled) = true := by
      rcases hpl with h | h <;> simp [h, htg]
    rw [applyProteanMask_eq]
    simp only [hc, if_true]
  · simp only [buildOptions]
    rw [(applyPowerTrick_proj _ _).2.2.2.2.2.2, (applyTransform_proj _ _).2.2.2.2.2.2,
      (maskStages_proj _ _ _ _ _).2.2.2.2.2.2.1, applyLegacySpc_overridesTypes]
    have e : (smogonOptionsBase (detectGenFromFormat format) p mv fld).overridesTypes =
        resolveTypes p := rfl
    rw [e]
    unfold resolveTypes
    rw [if_pos hdt]

/-- C8 witness: the amended rule at the concrete Protean Greninja — ability
masked to `Pressure`, overridden typing `['Poison']` forwarded. -/
theorem claim_C8_amended_protean_mask_witness :
    (createSmogonPokemon "gen9ou" (some proteanCE) none none none).map
      (fun o => o.ability) = some (some "Pressure") ∧
    (createSmogonPokemon "gen9ou" (some proteanCE) none none none).map
      (fun o => o.overridesTypes) = some [some "Poison", none] := by
  have h := claim_C8_amended_protean_mask "gen9ou" proteanCE none none none
    (by decide) (by decide) (by decide) "Protean" (by decide) (Or.inl (by decide))
    rfl (by decide)
  exact ⟨h.1, h.2⟩

/-! ## Claim C1 support lemmas -/

theorem smogonOptionsBase_item (gen : Nat) (p : CalcdexPokemon) (mv : Option String)
    (fld : Option CalcdexBattleField) :
    (smogonOptionsBase gen p mv fld).item = resolveItem gen p := rfl

theorem smogonOptionsBase_status (gen : Nat) (p : CalcdexPokemon) (mv : Option String)
    (fld : Option CalcdexBattleField) :
    (smogonOptionsBase gen p mv fld).status = resolveStatus p := rfl

theorem smogonOptionsBase_boosts (gen : Nat) (p : CalcdexPokemon) (mv : Option String)
    (fld : Option CalcdexBattleField) :
    (smogonOptionsBase gen p mv fld).boosts = boostsTable p := rfl

theorem smogonOptionsBase_obs (gen : Nat) (p : CalcdexPokemon) (mv : Option String)
    (fld : Option CalcdexBattleField) :
    (smogonOptionsBase gen p mv fld).overridesBaseStats = mergedBaseStats p := rfl

theorem smogonOptionsBase_types (gen : Nat) (p : CalcdexPokemon) (mv : Option String)
    (fld : Option CalcdexBattleField) :
    (smogonOptionsBase gen p mv fld).overridesTypes = resolveTypes p := rfl

theorem smogonOptionsBase_allies (gen : Nat) (p : CalcdexPokemon) (mv : Option String)
    (fld : Option CalcdexBattleField) :
    (smogonOptionsBase gen p mv fld).alliesFainted = alliesFaintedCalc mv p := rfl

theorem applyLegacySpc_boosts_proj (gen : Nat) (o : SmogonPokemonOptions) :
    (applyLegacySpc gen o).boosts.atk = o.boosts.atk ∧
    (applyLegacySpc gen o).boosts.defn = o.boosts.defn ∧
    (applyLegacySpc gen o).boosts.spa = o.boosts.spa ∧
    (applyLegacySpc gen o).boosts.spe = o.boosts.spe ∧
    (gen ≠ 1 → (applyLegacySpc gen o).boosts.spd = o.boosts.spd) := by
  refine ⟨?_, ?_, ?_, ?_, ?_⟩ <;> simp only [applyLegacySpc]
  · split <;> split <;> rfl
  · split <;> split <;> rfl
  · split <;> split <;> rfl
  · split <;> split <;> rfl
  · intro hne
    rw [if_neg hne]
    split <;> rfl

theorem applyLegacySpc_obs_proj (gen : Nat) (o : SmogonPokemonOptions) :
    (applyLegacySpc gen o).overridesBaseStats.hp = o.overridesBaseStats.hp ∧
    (applyLegacySpc gen o).overridesBaseStats.atk = o.overridesBaseStats.atk ∧
    (applyLegacySpc gen o).overridesBaseStats.defn = o.overridesBaseStats.defn ∧
    (applyLegacySpc gen o).overridesBaseStats.spa = o.overridesBaseStats.spa ∧
    (applyLegacySpc gen o).overridesBaseStats.spe = o.overridesBaseStats.spe ∧
    (gen ≠ 1 → (applyLegacySpc gen o).overridesBaseStats.spd = o.overridesBaseStats.spd) := by
  refine ⟨?_, ?_, ?_, ?_, ?_, ?_⟩ <;> simp only [applyLegacySpc]
  · split <;> (try split) <;> (try split) <;> rfl
  · split <;> (try split) <;> (try split) <;> rfl
  · split <;> (try split) <;> (try split) <;> rfl
  · split <;> (try split) <;> (try split) <;> rfl
  · split <;> (try split) <;> (try split) <;> rfl
  · intro hne
    rw [if_neg hne]
    split <;> rfl

theorem applyPowerTrick_obs_hp_spe (p : CalcdexPokemon) (o : SmogonPokemonOptions) :
    (applyPowerTrick p o).overridesBaseStats.hp = o.overridesBaseStats.hp ∧
    (applyPowerTrick p o).overridesBaseStats.spe = o.overridesBaseStats.spe := by
  unfold applyPowerTrick
  constructor <;> (split <;> rfl)

theorem applyProteanMask_ability_congr (p p2 : CalcdexPokemon) (aid : Option String)
    (o o2 : SmogonPokemonOptions) (htg : p.abilityToggled = p2.abilityToggled)
    (h : o.ability = o2.ability) :
    (applyProteanMask p aid o).ability = (applyProteanMask p2 aid o2).ability := by
  unfold applyProteanMask
  rw [htg]
  split <;> simp [h]

theorem applyBoostMask_ability_congr (aid : Option String) (o o2 : SmogonPokemonOptions)
    (h : o.ability = o2.ability) :
    (applyBoostMask aid o).ability = (applyBoostMask aid o2).ability := by
  unfold applyBoostMask
  split <;> simp [h]

theorem applyRuinMask_ability_congr (legacy : Bool) (aid : Option String)
    (opp : Option CalcdexPokemon) (o o2 : SmogonPokemonOptions)
    (h : o.ability = o2.ability) :
    (applyRuinMask legacy aid opp o).ability = (applyRuinMask legacy aid opp o2).ability := by
  unfold applyRuinMask
  rcases aid with _ | a <;> rcases opp with _ | q
  · exact h
  · exact h
  · exact h
  · dsimp only
    split
    · split
      · split <;> simp [h]
      · exact h
    · exact h

theorem smogonOptionsBase_ability_congr (gen : Nat) (p p2 : CalcdexPokemon)
    (mv : Option String) (fld : Option CalcdexBattleField)
    (hres : resolveAbility (detectLegacyGen gen) p = resolveAbility (detectLegacyGen gen) p2)
    (ht1 : p.abilityToggleable = p2.abilityToggleable)
    (ht2 : p.abilityToggled = p2.abilityToggled) :
    (smogonOptionsBase gen p mv fld).ability = (smogonOptionsBase gen p2 mv fld).ability := by
  simp only [smogonOptionsBase]
  rw [hres, ht1, ht2]

/-! ## Claim C1 -/

/-- C1 counterexample: the claim says a present, non-null dirty field always
takes precedence over its base counterpart in the produced record; but for a
transformed combatant the base-stat substitution uses the *base* hp even
though a dirty hp override (77) is present and non-null — the output carries
the base 100. -/
theorem claim_C1_counterexample_transform_dirty_hp :
    c1TransformDirtyCE.dirtyBaseStats.hp = some 77 ∧
    (createSmogonPokemon "gen9ou" (some c1TransformDirtyCE) none none none).map
      (fun o => o.overridesBaseStats.hp) = some (some 100) ∧
    c1TransformDirtyCE.baseStats.hp = 100 ∧ (77 : Int) ≠ 100 := by decide

/-- C1 (amended): in the produced engine parameter record, each dirty
override takes precedence over its base counterpart with the following
provisos forced by the code: `dirtyItem` resolves on its own (base item
unused) with the gen-1 and empty-string carve-outs; a `dirtyStatus` other
than the `'???'` sentinel wins with `'ok'` mapping to no-status; with
`dirtyAbility` set, the produced ability is independent of the base ability;
each set `dirtyBoosts` entry wins (spd only outside gen 1, which mirrors
spa); each non-negative `dirtyBaseStats` entry wins provided the combatant
is not transformed (spd outside gen 1, atk/def without `powertrick`);
non-empty `dirtyTypes` wins; `dirtyFaintCounter` wins whenever the evaluated
move carries no override. -/
theorem claim_C1_amended_override_precedence (format : String) (p : CalcdexPokemon)
    (mv : Option String) (opp : Option CalcdexPokemon) (fld : Option CalcdexBattleField)
    (hg : 1 ≤ detectGenFromFormat format)
    (hid : (p.calcdexId.getD "") ≠ "") (hsf : p.speciesForme ≠ "") :
    (∀ it, p.dirtyItem = some it →
      (createSmogonPokemon format (some p) mv opp fld).map (fun o => o.item) =
        some (if 1 < detectGenFromFormat format then (if it = "" then none else some it)
          else none)) ∧
    (∀ ds, p.dirtyStatus = some ds → ds ≠ "" → ds ≠ "???" →
      (createSmogonPokemon format (some p) mv opp fld).map (fun o => o.status) =
        some (if ds = "ok" then none else some ds)) ∧
    (∀ (ab : String) (x : Option String), p.dirtyAbility = some ab →
      (createSmogonPokemon format (some { p with ability := x }) mv opp fld).map
        (fun o => o.ability) =
      (createSmogonPokemon format (some p) mv opp fld).map (fun o => o.ability)) ∧
    (∀ v : Int,
      (p.dirtyBoosts.atk = some v →
        (createSmogonPokemon format (some p) mv opp fld).map (fun o => o.boosts.atk) = some v) ∧
      (p.dirtyBoosts.defn = some v →
        (createSmogonPokemon format (some p) mv opp fld).map (fun o => o.boosts.defn) = some v) ∧
      (p.dirtyBoosts.spa = some v →
        (createSmogonPokemon format (some p) mv opp fld).map (fun o => o.boosts.spa) = some v) ∧
      (p.dirtyBoosts.spe = some v →
        (createSmogonPokemon format (some p) mv opp fld).map (fun o => o.boosts.spe) = some v) ∧
      (p.dirtyBoosts.spd = some v → detectGenFromFormat format ≠ 1 →
        (createSmogonPokemon format (some p) mv opp fld).map (fun o => o.boosts.spd) = some v)) ∧
    ((p.transformedForme.getD "") = "" → ∀ v : Int, 0 ≤ v →
      (p.dirtyBaseStats.hp = some v →
        (createSmogonPokemon format (some p) mv opp fld).map
          (fun o => o.overridesBaseStats.hp) = some (some v)) ∧
      (p.dirtyBaseStats.spa = some v →
        (createSmogonPokemon format (some p) mv opp fld).map
          (fun o => o.overridesBaseStats.spa) = some (some v)) ∧
      (p.dirtyBaseStats.spe = some v →
        (createSmogonPokemon format (some p) mv opp fld).map
          (fun o => o.overridesBaseStats.spe) = some (some v)) ∧
      (p.dirtyBaseStats.spd = some v → detectGenFromFormat format ≠ 1 →
        (createSmogonPokemon format (some p) mv opp fld).map
          (fun o => o.overridesBaseStats.spd) = some (some v)) ∧
      (¬ p.volatiles.contains "powertrick" = true →
        (p.dirtyBaseStats.atk = some v →
          (createSmogonPokemon format (some p) mv opp fld).map
            (fun o => o.overridesBaseStats.atk) = some (some v)) ∧
        (p.dirtyBaseStats.defn = some v →
          (createSmogonPokemon format (some p) mv opp fld).map
            (fun o => o.overridesBaseStats.defn) = some (some v)))) ∧
    (p.dirtyTypes ≠ [] →
      (createSmogonPokemon format (some p) mv opp fld).map (fun o => o.overridesTypes) =
        some ((p.dirtyTypes.map some ++ [none, none]).take 2)) ∧
    (∀ n : Int, p.dirtyFaintCounter = some n →
      (mv = none ∨ ∃ m, mv = some m ∧ ¬ p.moveOverrides.contains m = true) →
      (createSmogonPokemon format (some p) mv opp fld).map (fun o => o.alliesFainted) =
        some (some n)) := by
  have hcs := createSmogonPokemon_some format p mv opp fld hg hid hsf
  refine ⟨?_, ?_, ?_, ?_, ?_, ?_, ?_⟩
  · intro it hd
    rw [hcs]
    simp only [Option.map_some', buildOptions]
    rw [(applyPowerTrick_proj _ _).1, (applyTransform_proj _ _).1,
      (maskStages_proj _ _ _ _ _).1, applyLegacySpc_item, smogonOptionsBase_item]
    simp [resolveItem, jsNullish, jsTruthy, hd]
  · intro ds hd hne1 hne2
    rw [hcs]
    simp only [Option.map_some', buildOptions]
    rw [(applyPowerTrick_proj _ _).2.1, (applyTransform_proj _ _).2.1,
      (maskStages_proj _ _ _ _ _).2.1, applyLegacySpc_status, smogonOptionsBase_status]
    simp [resolveStatus, hd, hne1, hne2]
  · intro ab x hd
    have hid2 : (({ p with ability := x } : CalcdexPokemon).calcdexId.getD "") ≠ "" := hid
    have hsf2 : ({ p with ability := x } : CalcdexPokemon).speciesForme ≠ "" := hsf
    rw [createSmogonPokemon_some format { p with ability := x } mv opp fld hg hid2 hsf2, hcs]
    simp only [Option.map_some', buildOptions]
    simp only [applyPowerTrick_ability, applyTransform_ability]
    have hres : resolveAbility (detectLegacyGen (detectGenFromFormat format))
        { p with ability := x } =
        resolveAbility (detectLegacyGen (detectGenFromFormat format)) p := by
      simp [resolveAbility, jsNullish, hd]
    rw [hres]
    refine congrArg some ?_
    apply applyRuinMask_ability_congr
    apply applyBoostMask_ability_congr
    refine applyProteanMask_ability_congr _ _ _ _ _ rfl ?_
    rw [applyLegacySpc_ability, applyLegacySpc_ability]
    exact smogonOptionsBase_ability_congr _ _ _ _ _ hres rfl rfl
  · intro v
    refine ⟨?_, ?_, ?_, ?_, ?_⟩
    · intro hd
      rw [hcs]
      simp only [Option.map_some', buildOptions]
      rw [(applyPowerTrick_proj _ _).2.2.2.1, (applyTransform_proj _ _).2.2.2.1,
        (maskStages_proj _ _ _ _ _).2.2.2.1, (applyLegacySpc_boosts_proj _ _).1,
        smogonOptionsBase_boosts]
      simp [boostsTable, jsNullish, hd]
    · intro hd
      rw [hcs]
      simp only [Option.map_some', buildOptions]
      rw [(applyPowerTrick_proj _ _).2.2.2.1, (applyTransform_proj _ _).2.2.2.1,
        (maskStages_proj _ _ _ _ _).2.2.2.1, (applyLegacySpc_boosts_proj _ _).2.1,
        smogonOptionsBase_boosts]
      simp [boostsTable, jsNullish, hd]
    · intro hd
      rw [hcs]
      simp only [Option.map_some', buildOptions]
      rw [(applyPowerTrick_proj _ _).2.2.2.1, (applyTransform_proj _ _).2.2.2.1,
        (maskStages_proj _ _ _ _ _).2.2.2.1, (applyLegacySpc_boosts_proj _ _).2.2.1,
        smogonOptionsBase_boosts]
      simp [boostsTable, jsNullish, hd]
    · intro hd
      rw [hcs]
      simp only [Option.map_some', buildOptions]
      rw [(applyPowerTrick_proj _ _).2.2.2.1, (applyTransform_proj _ _).2.2.2.1,
        (maskStages_proj _ _ _ _ _).2.2.2.1, (applyLegacySpc_boosts_proj _ _).2.2.2.1,
        smogonOptionsBase_boosts]
      simp [boostsTable, jsNullish, hd]
    · intro hd hne
      rw [hcs]
      simp only [Option.map_some', buildOptions]
      rw [(applyPowerTrick_proj _ _).2.2.2.1, (applyTransform_proj _ _).2.2.2.1,
        (maskStages_proj _ _ _ _ _).2.2.2.1, (applyLegacySpc_boosts_proj _ _).2.2.2.2 hne,
        smogonOptionsBase_boosts]
      simp [boostsTable, jsNullish, hd]
  · intro htf v hv
    refine ⟨?_, ?_, ?_, ?_, ?_⟩
    · intro hd
      rw [hcs]
      simp only [Option.map_some', buildOptions]
      rw [applyTransform_not p _ htf, (applyPowerTrick_obs_hp_spe _ _).1,
        applyRuinMask_overridesBaseStats, applyBoostMask_overridesBaseStats,
        applyProteanMask_overridesBaseStats, (applyLegacySpc_obs_proj _ _).1,
        smogonOptionsBase_obs]
      simp [mergedBaseStats, dirtyOkStat, hd, hv]
    · intro hd
      rw [hcs]
      simp only [Option.map_some', buildOptions]
      rw [applyTransform_not p _ htf, (applyPowerTrick_obs_spc _ _).1,
        applyRuinMask_overridesBaseStats, applyBoostMask_overridesBaseStats,
        applyProteanMask_overridesBaseStats, (applyLegacySpc_obs_proj _ _).2.2.2.1,
        smogonOptionsBase_obs]
      simp [mergedBaseStats, dirtyOkStat, hd, hv]
    · intro hd
      rw [hcs]
      simp only [Option.map_some', buildOptions]
      rw [applyTransform_not p _ htf, (applyPowerTrick_obs_hp_spe _ _).2,
        applyRuinMask_overridesBaseStats, applyBoostMask_overridesBaseStats,
        applyProteanMask_overridesBaseStats, (applyLegacySpc_obs_proj _ _).2.2.2.2.1,
        smogonOptionsBase_obs]
      simp [mergedBaseStats, dirtyOkStat, hd, hv]
    · intro hd hne
      rw [hcs]
      simp only [Option.map_some', buildOptions]
      rw [applyTransform_not p _ htf, (applyPowerTrick_obs_spc _ _).2,
        applyRuinMask_overridesBaseStats, applyBoostMask_overridesBaseStats,
        applyProteanMask_overridesBaseStats, (applyLegacySpc_obs_proj _ _).2.2.2.2.2 hne,
        smogonOptionsBase_obs]
      simp [mergedBaseStats, dirtyOkStat, hd, hv]
    · intro hpt
      constructor
      · intro hd
        rw [hcs]
        simp only [Option.map_some', buildOptions]
        rw [applyPowerTrick_not p _ hpt, applyTransform_not p _ htf,
          applyRuinMask_overridesBaseStats, applyBoostMask_overridesBaseStats,
          applyProteanMask_overridesBaseStats, (applyLegacySpc_obs_proj _ _).2.1,
          smogonOptionsBase_obs]
        simp [mergedBaseStats, dirtyOkStat, hd, hv]
      · intro hd
        rw [hcs]
        simp only [Option.map_some', buildOptions]
        rw [applyPowerTrick_not p _ hpt, applyTransform_not p _ htf,
          applyRuinMask_overridesBaseStats, applyBoostMask_overridesBaseStats,
          applyProteanMask_overridesBaseStats, (applyLegacySpc_obs_proj _ _).2.2.1,
          smogonOptionsBase_obs]
        simp [mergedBaseStats, dirtyOkStat, hd, hv]
  · intro hdt
    rw [hcs]
    simp only [Option.map_some', buildOptions]
    rw [(applyPowerTrick_proj _ _).2.2.2.2.2.2, (applyTransform_proj _ _).2.2.2.2.2.2,
      (maskStages_proj _ _ _ _ _).2.2.2.2.2.2.1, applyLegacySpc_overridesTypes,
      smogonOptionsBase_types]
    unfold resolveTypes
    rw [if_pos hdt]
  · intro n hd hmv
    rw [hcs]
    simp only [Option.map_some', buildOptions]
    rw [(applyPowerTrick_proj _ _).2.2.1, (applyTransform_proj _ _).2.2.1,
      (maskStages_proj _ _ _ _ _).2.2.1, applyLegacySpc_alliesFainted,
      smogonOptionsBase_allies]
    rcases hmv with rfl | ⟨m, rfl, hm⟩
    · simp [alliesFaintedCalc, hd]
    · have hm2 : m ∉ p.moveOverrides := by simpa using hm
      simp [alliesFaintedCalc, hd, hm2]

/-- C1 witness: the amended precedence rules at a concrete combatant whose
item, status, ability, atk boost, atk base stat, types and faint counter are
all overridden — each produced field reflects the override. -/
theorem claim_C1_amended_override_precedence_witness :
    (createSmogonPokemon "gen9ou" (some c1DirtyCE) none none none).map (fun o => o.item) =
      some (some "Leftovers") ∧
    (createSmogonPokemon "gen9ou" (some c1DirtyCE) none none none).map (fun o => o.status) =
      some (some "brn") ∧
    (createSmogonPokemon "gen9ou" (some { c1DirtyCE with ability := some "Levitate" })
        none none none).map (fun o => o.ability) =
      (createSmogonPokemon "gen9ou" (some c1DirtyCE) none none none).map (fun o => o.ability) ∧
    (createSmogonPokemon "gen9ou" (some c1DirtyCE) none none none).map
      (fun o => o.boosts.atk) = some 2 ∧
    (createSmogonPokemon "gen9ou" (some c1DirtyCE) none none none).map
      (fun o => o.overridesBaseStats.atk) = some (some 140) ∧
    (createSmogonPokemon "gen9ou" (some c1DirtyCE) none none none).map
      (fun o => o.overridesTypes) = some [some "Water", none] ∧
    (createSmogonPokemon "gen9ou" (some c1DirtyCE) none none none).map
      (fun o => o.alliesFainted) = some (some 3) := by
  have h := claim_C1_amended_override_precedence "gen9ou" c1DirtyCE none none none
    (by decide) (by decide) (by decide)
  refine ⟨?_, ?_, ?_, ?_, ?_, ?_, ?_⟩
  · exact h.1 "Leftovers" rfl
  · exact h.2.1 "brn" rfl (by decide) (by decide)
  · exact h.2.2.1 "Sand Veil" (some "Levitate") rfl
  · exact (h.2.2.2.1 2).1 rfl
  · exact ((h.2.2.2.2.1 (by decide) 140 (by decide)).2.2.2.2 (by decide)).1 rfl
  · exact h.2.2.2.2.2.1 (by decide)
  · exact h.2.2.2.2.2.2 3 rfl (Or.inl rfl)
